import Mathlib

set_option maxRecDepth 100000

/-!
Verification of the retrieval-augmented chat service (`app.py`).

The `/chat` handler is embedded as a pure function: the module-level
globals read by the handler become an explicit `ServerState`, and the
three external effects — language detection (`langdetect.detect`),
vector-store retrieval (`retriever.invoke`) and LLM generation
(`llm.invoke`) — become oracle arguments whose outcomes (success value
or raised exception) are supplied per request.  The handler body never
assigns to the globals, so the state component of the result is the
input state unchanged.
-/

/-- A retrieved document chunk; `page_content` is the text payload used
by `format_docs_func`. -/
structure Doc where
  page_content : String
deriving Repr, DecidableEq

/-- `format_docs_func(docs)`: joins the chunk texts with the separator
`"\n\n"` (Python `"\n\n".join(doc.page_content for doc in docs)`). -/
def format_docs_func (docs : List Doc) : String :=
  String.intercalate "\n\n" (docs.map Doc.page_content)

/-- Outcome of the `langdetect.detect` call: a detected code, the
recognized `LangDetectException`, or any other exception. -/
inductive DetectOutcome where
  | ok (code : String)
  | langDetectExc
  | otherExc
deriving Repr, DecidableEq

/-- Python `len(s.strip())`: the character count after discarding
leading and trailing whitespace. -/
def strippedLength (s : String) : Nat :=
  ((s.data.dropWhile Char.isWhitespace).reverse.dropWhile Char.isWhitespace).length

/-- The language-detection block of `chat` (app.py lines 150-162):
`detected_lang` defaults to `"bn"`; detection runs only when the
stripped message is longer than 10 characters; both exception handlers
reset the result to `"bn"`. -/
def routeLanguage (userMessage : String) (det : DetectOutcome) : String :=
  if strippedLength userMessage > 10 then
    match det with
    | .ok code => code
    | .langDetectExc => "bn"
    | .otherExc => "bn"
  else "bn"

/-- A langchain `PromptTemplate` with the two named slots `{context}`
and `{question}`, kept as the text before, between and after the
slots (each slot occurs exactly once in both templates of app.py). -/
structure PromptTemplate where
  pre : String
  mid : String
  post : String
deriving Repr, DecidableEq

/-- The template's source text, slots unexpanded. -/
def PromptTemplate.text (t : PromptTemplate) : String :=
  t.pre ++ "{context}" ++ t.mid ++ "{question}" ++ t.post

/-- `prompt_template.format(context=..., question=...)`: substitutes the
two slot values verbatim. -/
def PromptTemplate.format (t : PromptTemplate) (context question : String) : String :=
  t.pre ++ context ++ t.mid ++ question ++ t.post

def bn_pre : String := "[SYSTEM]: আপনি একজন সহায়ক সহকারী যিনি সর্বদা বাংলা ভাষায় উত্তর দিবেন।\n\n    নিম্নলিখিত প্রসঙ্গ ব্যবহার করে প্রশ্নের উত্তর দিন:\n\n    "

def bn_mid : String := "\n\n    যদি আপনি উত্তর না জানেন, তবে শুধু বাংলায় বলুন \"আমি এই প্রশ্নের উত্তর জানি না\"।\n\n    নির্দেশাবলী:\n    - অবশ্যই শুধুমাত্র বাংলা ভাষায় উত্তর দিন\n    - সর্বোচ্চ তিনটি বাক্য ব্যবহার করুন\n    - সংক্ষিপ্ত এবং সুনির্দিষ্ট উত্তর দিন\n    - প্রদত্ত তথ্যের বাইরে যাবেন না\n\n    প্রশ্ন: "

def bn_post : String := "\n\n    উত্তর:"

def en_pre : String := "[SYSTEM]: You are a helpful assistant that MUST always respond in English.\n\n    Use the following context to answer the question:\n\n    "

def en_mid : String := "\n\n    If you don\x27t know the answer, just say \"I don\x27t know the answer to this question\" in English.\n\n    Instructions:\n    - MUST answer only in English.\n    - Use a maximum of three sentences.\n    - Keep the answer concise and specific.\n    - Do not go beyond the provided information.\n\n    Question: "

def en_post : String := "\n\n    Answer:"

/-- The Bengali prompt template (`QA_PROMPT_BN`, app.py lines 83-100). -/
def QA_PROMPT_BN : PromptTemplate := ⟨bn_pre, bn_mid, bn_post⟩

/-- The English prompt template (`QA_PROMPT_EN`, app.py lines 103-120). -/
def QA_PROMPT_EN : PromptTemplate := ⟨en_pre, en_mid, en_post⟩

/-- `template_bn` exactly as the Python triple-quoted literal. -/
def template_bn : String := "[SYSTEM]: আপনি একজন সহায়ক সহকারী যিনি সর্বদা বাংলা ভাষায় উত্তর দিবেন।\n\n    নিম্নলিখিত প্রসঙ্গ ব্যবহার করে প্রশ্নের উত্তর দিন:\n\n    {context}\n\n    যদি আপনি উত্তর না জানেন, তবে শুধু বাংলায় বলুন \"আমি এই প্রশ্নের উত্তর জানি না\"।\n\n    নির্দেশাবলী:\n    - অবশ্যই শুধুমাত্র বাংলা ভাষায় উত্তর দিন\n    - সর্বোচ্চ তিনটি বাক্য ব্যবহার করুন\n    - সংক্ষিপ্ত এবং সুনির্দিষ্ট উত্তর দিন\n    - প্রদত্ত তথ্যের বাইরে যাবেন না\n\n    প্রশ্ন: {question}\n\n    উত্তর:"

/-- `template_en` exactly as the Python triple-quoted literal. -/
def template_en : String := "[SYSTEM]: You are a helpful assistant that MUST always respond in English.\n\n    Use the following context to answer the question:\n\n    {context}\n\n    If you don\x27t know the answer, just say \"I don\x27t know the answer to this question\" in English.\n\n    Instructions:\n    - MUST answer only in English.\n    - Use a maximum of three sentences.\n    - Keep the answer concise and specific.\n    - Do not go beyond the provided information.\n\n    Question: {question}\n\n    Answer:"

theorem qa_prompt_bn_text_eq : QA_PROMPT_BN.text = template_bn := rfl

theorem qa_prompt_en_text_eq : QA_PROMPT_EN.text = template_en := rfl

/-- The backend response envelope: `ai_response.content` when the
attribute exists, otherwise only its `str(...)` rendering is
available. -/
inductive LLMEnvelope where
  | withContent (content : String)
  | raw (rendered : String)
deriving Repr, DecidableEq

/-- `ai_response.content if hasattr(ai_response, 'content') else
str(ai_response)` (app.py line 193). -/
def extractText : LLMEnvelope → String
  | .withContent c => c
  | .raw r => r

/-- The module-level globals read by `chat`; the handler never assigns
them.  `loaded` models the `all([llm, retriever, format_docs,
QA_PROMPT_BN, QA_PROMPT_EN])` readiness check. -/
structure ServerState where
  loaded : Bool
  qaPromptBn : PromptTemplate
  qaPromptEn : PromptTemplate
deriving Repr, DecidableEq

/-- A `jsonify(...)` result with its HTTP status code. -/
inductive ChatResult where
  | okResp (response : String)
  | errResp (status : Nat) (error : String)
deriving Repr, DecidableEq

/-- Status code of a response (200 on the success shape). -/
def chatStatus : ChatResult → Nat
  | .okResp _ => 200
  | .errResp s _ => s

def notLoadedError : String := "RAG components are not loaded. Check server logs."

def noMessageError : String := "No \x27message\x27 found in request"

def retrievalError : String := "Failed to retrieve relevant context."

/-- The `/chat` handler (app.py lines 130-204).  `messageField` is
`data.get('message')`; `det`, `retrieval` and `llmInvoke` are the
outcomes of the three external calls.  Python truthiness of
`user_message` for a string is non-emptiness. -/
def chat (st : ServerState) (messageField : Option String) (det : DetectOutcome)
    (retrieval : Except String (List Doc))
    (llmInvoke : String → Except String LLMEnvelope) : ChatResult × ServerState :=
  if !st.loaded then
    (.errResp 500 notLoadedError, st)
  else
    match messageField with
    | none => (.errResp 400 noMessageError, st)
    | some userMessage =>
      if userMessage = "" then (.errResp 400 noMessageError, st)
      else
        let detectedLang := routeLanguage userMessage det
        match retrieval with
        | .error _ => (.errResp 500 retrievalError, st)
        | .ok docs =>
          let contextText := format_docs_func docs
          let promptTemplate := if detectedLang = "bn" then st.qaPromptBn else st.qaPromptEn
          let formattedPrompt := promptTemplate.format contextText userMessage
          match llmInvoke formattedPrompt with
          | .error e => (.errResp 500 ("LLM failed to generate response: " ++ e), st)
          | .ok env => (.okResp (extractText env), st)

/-- The state after a successful `load_rag_components()`. -/
def readyState : ServerState := ⟨true, QA_PROMPT_BN, QA_PROMPT_EN⟩

/-- A state in which startup did not complete. -/
def notReadyState : ServerState := ⟨false, QA_PROMPT_BN, QA_PROMPT_EN⟩

/-- LLM oracle that echoes the prompt it receives, used to observe
which assembled prompt reaches the backend. -/
def llmEcho : String → Except String LLMEnvelope := fun p => .ok (.withContent p)

/-- Context formatting as the spec words it: chunk texts concatenated
in order with exactly two newline characters between consecutive
chunks, empty sequence giving the empty string. -/
def contextSpecJoin : List Doc → String
  | [] => ""
  | [d] => d.page_content
  | d :: rest => d.page_content ++ "\n\n" ++ contextSpecJoin rest

theorem intercalate_go_append (s x : String) :
    ∀ (as : List String) (y : String),
      String.intercalate.go (x ++ y) s as = x ++ String.intercalate.go y s as := by
  intro as
  induction as with
  | nil => intro y; rfl
  | cons a as ih =>
    intro y
    show String.intercalate.go (x ++ y ++ s ++ a) s as
        = x ++ String.intercalate.go (y ++ s ++ a) s as
    rw [String.append_assoc, String.append_assoc, ih, String.append_assoc y s a]

theorem format_docs_eq_specJoin (docs : List Doc) :
    format_docs_func docs = contextSpecJoin docs := by
  induction docs with
  | nil => rfl
  | cons d rest ih =>
    cases rest with
    | nil => rfl
    | cons e rest2 =>
      show String.intercalate.go (d.page_content ++ "\n\n" ++ e.page_content) "\n\n"
            (rest2.map Doc.page_content)
          = d.page_content ++ "\n\n" ++ contextSpecJoin (e :: rest2)
      rw [← ih]
      show String.intercalate.go (d.page_content ++ "\n\n" ++ e.page_content) "\n\n"
            (rest2.map Doc.page_content)
          = d.page_content ++ "\n\n"
              ++ String.intercalate.go e.page_content "\n\n" (rest2.map Doc.page_content)
      rw [intercalate_go_append]

/-- C4: `format_docs_func` concatenates the chunk texts in order with
exactly two newline characters between consecutive chunks, and maps the
empty sequence to the empty string. -/
theorem c4_context_formatter (docs : List Doc) :
    format_docs_func docs = contextSpecJoin docs
      ∧ format_docs_func ([] : List Doc) = "" :=
  ⟨format_docs_eq_specJoin docs, rfl⟩

/-- C1: with detection succeeding on a long-enough message, a detected
code of exactly "bn" selects the Bengali template and any other code
selects the English template (binary collapse, app.py lines 180-185);
the echo oracle exposes the assembled prompt. -/
theorem c1_binary_collapse (code userMessage : String) (docs : List Doc)
    (hne : userMessage ≠ "") (hlong : strippedLength userMessage > 10) :
    (code = "bn" →
      (chat readyState (some userMessage) (.ok code) (.ok docs) llmEcho).1
        = .okResp (QA_PROMPT_BN.format (format_docs_func docs) userMessage))
    ∧ (code ≠ "bn" →
      (chat readyState (some userMessage) (.ok code) (.ok docs) llmEcho).1
        = .okResp (QA_PROMPT_EN.format (format_docs_func docs) userMessage)) := by
  have hroute : routeLanguage userMessage (.ok code) = code := by
    unfold routeLanguage; rw [if_pos hlong]
  refine ⟨?_, ?_⟩
  · intro hcode
    subst hcode
    simp [chat, readyState, hroute, hne, llmEcho, extractText]
  · intro hcode
    simp [chat, readyState, hroute, hne, hcode, llmEcho, extractText]

theorem c1_binary_collapse_witness :
    ((chat readyState (some "What is the punishment for theft") (.ok "bn") (.ok []) llmEcho).1
        = .okResp (QA_PROMPT_BN.format (format_docs_func []) "What is the punishment for theft"))
    ∧ ((chat readyState (some "What is the punishment for theft") (.ok "fr") (.ok []) llmEcho).1
        = .okResp (QA_PROMPT_EN.format (format_docs_func []) "What is the punishment for theft")) :=
  ⟨(c1_binary_collapse "bn" "What is the punishment for theft" [] (by decide) (by decide)).1 rfl,
   (c1_binary_collapse "fr" "What is the punishment for theft" [] (by decide) (by decide)).2
     (by decide)⟩

/-- C2: a message whose trimmed length is at most 10 routes to "bn" for
every detector outcome (the detector is not consulted), and the request
is served with the Bengali template. -/
theorem c2_short_message_bn (userMessage : String) (det : DetectOutcome) (docs : List Doc)
    (hne : userMessage ≠ "") (hshort : strippedLength userMessage ≤ 10) :
    routeLanguage userMessage det = "bn"
      ∧ (chat readyState (some userMessage) det (.ok docs) llmEcho).1
          = .okResp (QA_PROMPT_BN.format (format_docs_func docs) userMessage) := by
  have hroute : routeLanguage userMessage det = "bn" := by
    unfold routeLanguage
    rw [if_neg (by omega)]
  refine ⟨hroute, ?_⟩
  simp [chat, readyState, hroute, hne, llmEcho, extractText]

theorem c2_short_message_bn_witness :
    routeLanguage "আইন কি?" (.ok "en") = "bn"
      ∧ (chat readyState (some "আইন কি?") (.ok "en") (.ok []) llmEcho).1
          = .okResp (QA_PROMPT_BN.format (format_docs_func []) "আইন কি?") :=
  c2_short_message_bn "আইন কি?" (.ok "en") [] (by decide) (by decide)

/-- C3: when detection raises (the recognized `LangDetectException` or
any other exception), the router yields "bn" and the request proceeds
exactly as if "bn" had been detected — the failure is never surfaced. -/
theorem c3_detection_failure_silent (st : ServerState) (userMessage : String)
    (det : DetectOutcome) (retrieval : Except String (List Doc))
    (llmInvoke : String → Except String LLMEnvelope)
    (herr : det = .langDetectExc ∨ det = .otherExc) :
    routeLanguage userMessage det = "bn"
      ∧ chat st (some userMessage) det retrieval llmInvoke
          = chat st (some userMessage) (.ok "bn") retrieval llmInvoke := by
  have hdet : routeLanguage userMessage det = "bn" := by
    rcases herr with h | h <;> subst h <;> unfold routeLanguage <;> split <;> rfl
  have hbn : routeLanguage userMessage (.ok "bn") = "bn" := by
    unfold routeLanguage; split <;> rfl
  refine ⟨hdet, ?_⟩
  simp only [chat, hdet, hbn]

theorem c3_detection_failure_silent_witness :
    routeLanguage "what is the law about theft" .langDetectExc = "bn"
      ∧ chat readyState (some "what is the law about theft") .langDetectExc (.ok []) llmEcho
          = chat readyState (some "what is the law about theft") (.ok "bn") (.ok []) llmEcho :=
  c3_detection_failure_silent readyState "what is the law about theft" .langDetectExc
    (.ok []) llmEcho (Or.inl rfl)

/-- C6: a missing or empty message yields the 400 client error at once:
the result does not depend on the retrieval or generation oracles, and
the server state is returned untouched. -/
theorem c6_missing_or_empty_message (st : ServerState) (det : DetectOutcome)
    (retrieval : Except String (List Doc))
    (llmInvoke : String → Except String LLMEnvelope)
    (hloaded : st.loaded = true) :
    chat st none det retrieval llmInvoke = (.errResp 400 noMessageError, st)
      ∧ chat st (some "") det retrieval llmInvoke = (.errResp 400 noMessageError, st) := by
  constructor <;> simp [chat, hloaded]

theorem c6_missing_or_empty_message_witness :
    chat readyState none (.ok "en") (.ok []) llmEcho = (.errResp 400 noMessageError, readyState)
      ∧ chat readyState (some "") (.ok "en") (.ok []) llmEcho
          = (.errResp 400 noMessageError, readyState) :=
  c6_missing_or_empty_message readyState (.ok "en") (.ok []) llmEcho rfl

/-- The canned refusal phrase of the Bengali template. -/
def fallbackPhraseBn : String := "আমি এই প্রশ্নের উত্তর জানি না"

/-- The canned refusal phrase of the English template. -/
def fallbackPhraseEn : String := "I don\x27t know the answer to this question"

def bn_mid_a : String := "\n\n    যদি আপনি উত্তর না জানেন, তবে শুধু বাংলায় বলুন \""

def bn_mid_b : String := "\"।\n\n    নির্দেশাবলী:\n    - অবশ্যই শুধুমাত্র বাংলা ভাষায় উত্তর দিন\n    - সর্বোচ্চ তিনটি বাক্য ব্যবহার করুন\n    - সংক্ষিপ্ত এবং সুনির্দিষ্ট উত্তর দিন\n    - প্রদত্ত তথ্যের বাইরে যাবেন না\n\n    প্রশ্ন: "

def en_mid_a : String := "\n\n    If you don\x27t know the answer, just say \""

def en_mid_b : String := "\" in English.\n\n    Instructions:\n    - MUST answer only in English.\n    - Use a maximum of three sentences.\n    - Keep the answer concise and specific.\n    - Do not go beyond the provided information.\n\n    Question: "

theorem format_docs_nil : format_docs_func ([] : List Doc) = "" := rfl

theorem bn_mid_split : bn_mid = bn_mid_a ++ fallbackPhraseBn ++ bn_mid_b := rfl

theorem en_mid_split : en_mid = en_mid_a ++ fallbackPhraseEn ++ en_mid_b := rfl

/-- C5: with zero retrieved chunks the context slot is the empty
string, and the prompt assembled from either template still contains
that template's refusal-phrase instruction, for every question. -/
theorem c5_empty_context_fallback (question : String) :
    format_docs_func ([] : List Doc) = ""
      ∧ (∃ a b, QA_PROMPT_BN.format (format_docs_func []) question
          = a ++ fallbackPhraseBn ++ b)
      ∧ (∃ a b, QA_PROMPT_EN.format (format_docs_func []) question
          = a ++ fallbackPhraseEn ++ b) := by
  refine ⟨rfl, ⟨bn_pre ++ bn_mid_a, bn_mid_b ++ question ++ bn_post, ?_⟩,
    ⟨en_pre ++ en_mid_a, en_mid_b ++ question ++ en_post, ?_⟩⟩
  · show bn_pre ++ format_docs_func [] ++ bn_mid ++ question ++ bn_post = _
    rw [bn_mid_split]
    simp [String.append_assoc, format_docs_nil]
  · show en_pre ++ format_docs_func [] ++ en_mid ++ question ++ en_post = _
    rw [en_mid_split]
    simp [String.append_assoc, format_docs_nil]

/-- C7 counterexample: the components-not-loaded response carries
status 500, the very status the handler uses for a mid-request
retrieval failure — not a status class of its own. -/
theorem c7_counterexample :
    chatStatus (chat notReadyState (some "hello") (.ok "en") (.ok []) llmEcho).1 = 500
      ∧ chatStatus
          (chat readyState (some "hello there friend") (.ok "en")
            (.error "index search failed") llmEcho).1 = 500
      ∧ chatStatus (chat notReadyState (some "hello") (.ok "en") (.ok []) llmEcho).1
          = chatStatus
              (chat readyState (some "hello there friend") (.ok "en")
                (.error "index search failed") llmEcho).1 :=
  ⟨rfl, rfl, rfl⟩

/-- C7 amended: while the components are not loaded every request gets
the fixed error body "RAG components are not loaded. Check server
logs." with status 500 — the same numeric class as retrieval and
generation failures, distinguishable from them only by message, and
distinct from the 400 missing-input response. -/
theorem c7_not_ready_error (st : ServerState) (messageField : Option String)
    (det : DetectOutcome) (retrieval : Except String (List Doc))
    (llmInvoke : String → Except String LLMEnvelope)
    (hnot : st.loaded = false) :
    chat st messageField det retrieval llmInvoke = (.errResp 500 notLoadedError, st)
      ∧ notLoadedError ≠ noMessageError ∧ notLoadedError ≠ retrievalError :=
  ⟨by simp [chat, hnot], by decide, by decide⟩

theorem c7_not_ready_error_witness :
    chat notReadyState (some "hello") (.ok "en") (.ok []) llmEcho
        = (.errResp 500 notLoadedError, notReadyState)
      ∧ notLoadedError ≠ noMessageError ∧ notLoadedError ≠ retrievalError :=
  c7_not_ready_error notReadyState (some "hello") (.ok "en") (.ok []) llmEcho rfl

/-- C8: a retrieval failure produces exactly the response
{"error": "Failed to retrieve relevant context."} with status 500, for
every generation oracle (so no generation is attempted), and hands the
server state back unchanged — the process stays ready. -/
theorem c8_retrieval_failure (st : ServerState) (userMessage : String)
    (det : DetectOutcome) (failure : String)
    (llmInvoke : String → Except String LLMEnvelope)
    (hloaded : st.loaded = true) (hne : userMessage ≠ "") :
    chat st (some userMessage) det (.error failure) llmInvoke
        = (.errResp 500 retrievalError, st)
      ∧ (chat st (some userMessage) det (.error failure) llmInvoke).2 = st := by
  have h : chat st (some userMessage) det (.error failure) llmInvoke
      = (.errResp 500 retrievalError, st) := by
    simp [chat, hloaded, hne]
  exact ⟨h, by rw [h]⟩

theorem c8_retrieval_failure_witness :
    chat readyState (some "What does section 5 say?") (.ok "en")
        (.error "index search failed") llmEcho
        = (.errResp 500 retrievalError, readyState)
      ∧ (chat readyState (some "What does section 5 say?") (.ok "en")
          (.error "index search failed") llmEcho).2 = readyState :=
  c8_retrieval_failure readyState "What does section 5 say?" (.ok "en")
    "index search failed" llmEcho rfl (by decide)

/-- C9: text extraction from the backend envelope is total: a
successful generation always yields a success response whose body is
`extractText` of the envelope — the `content` field when the attribute
exists, the `str(...)` rendering of the whole object otherwise. -/
theorem c9_extraction_total (st : ServerState) (userMessage : String)
    (det : DetectOutcome) (docs : List Doc) (env : LLMEnvelope)
    (hloaded : st.loaded = true) (hne : userMessage ≠ "") :
    (chat st (some userMessage) det (.ok docs) (fun _ => .ok env)).1
        = .okResp (extractText env)
      ∧ (∀ c, env = .withContent c → extractText env = c)
      ∧ (∀ r, env = .raw r → extractText env = r) := by
  refine ⟨?_, ?_, ?_⟩
  · simp [chat, hloaded, hne]
  · intro c h; subst h; rfl
  · intro r h; subst h; rfl

theorem c9_extraction_total_witness :
    (chat readyState (some "hi") (.ok "en") (.ok [])
        (fun _ => Except.ok (.raw "AIMessage(text)"))).1
      = .okResp (extractText (.raw "AIMessage(text)")) :=
  (c9_extraction_total readyState "hi" (.ok "en") [] (.raw "AIMessage(text)") rfl
    (by decide)).1

/-- C10: the readiness check runs before input validation: an unloaded
state answers every request — message present, empty or missing — with
the not-loaded 500 error, and a 400 client error can only arise from a
loaded state. -/
theorem c10_readiness_precedes_validation (st : ServerState) (messageField : Option String)
    (det : DetectOutcome) (retrieval : Except String (List Doc))
    (llmInvoke : String → Except String LLMEnvelope) :
    (st.loaded = false →
      chat st messageField det retrieval llmInvoke = (.errResp 500 notLoadedError, st))
      ∧ (∀ e, (chat st messageField det retrieval llmInvoke).1 = .errResp 400 e →
          st.loaded = true) := by
  constructor
  · intro h
    simp [chat, h]
  · intro e h
    cases hl : st.loaded with
    | true => rfl
    | false => simp [chat, hl] at h

theorem c10_readiness_precedes_validation_witness :
    chat notReadyState none (.ok "en") (.ok []) llmEcho
        = (.errResp 500 notLoadedError, notReadyState)
      ∧ readyState.loaded = true :=
  ⟨(c10_readiness_precedes_validation notReadyState none (.ok "en") (.ok []) llmEcho).1 rfl,
   (c10_readiness_precedes_validation readyState (some "") (.ok "en") (.ok []) llmEcho).2
     noMessageError rfl⟩
